import Mathlib

/-!
# Formal model of the fitness-challenge app's challenge module

A shallow embedding of `src/js/challenge.js` (challenge catalog, membership
store, progress aggregator, progress mutator, sync merger) together with the
pieces of `auth.js` it consumes.  JS numbers are modelled as rationals (`ℚ`);
JS truthiness of an optional numeric field (`undefined` and `0` are falsy) is
modelled explicitly.  Browser storage plus the session become an explicit
`AppState` record threaded through the operations, and wall-clock timestamps
become an explicit `now : ℚ` parameter.
-/

namespace FitChallenge

/-- JS truthiness of an optional number: a missing field (`undefined`) and `0`
are falsy, every other number is truthy.  (`NaN`, which is also falsy in JS,
does not exist in `ℚ` and is outside this model.) -/
def truthy (o : Option ℚ) : Bool :=
  match o with
  | none => false
  | some x => x != 0

/-- JS truthiness of a number that is always present. -/
def truthyQ (x : ℚ) : Bool := x != 0

/-- The `status` field of a user-challenge record: `'active' | 'completed' |
'abandoned'` (challenge.js line 320). -/
inductive Status where
  | active
  | completed
  | abandoned
  deriving DecidableEq, Repr

/-- The five goal kinds recognized by `initializeChallengeProgress` and
`calculateChallengeProgress`.  A challenge's `goals` object may hold other
keys (e.g. `totalSets`, `avgPace` in the seed data) but they are never read
by the tracked operations, so they are not modelled. -/
structure Goals where
  totalDistance : Option ℚ
  totalWorkouts : Option ℚ
  caloriesBurned : Option ℚ
  totalMinutes : Option ℚ
  totalSessions : Option ℚ
  deriving DecidableEq, Repr

/-- A catalog entry.  Only the fields read by the tracked operations are
modelled (title, description, rewards, etc. are presentation data). -/
structure Challenge where
  id : String
  category : String
  duration : ℚ
  participants : ℚ
  goals : Goals
  deriving DecidableEq, Repr

/-- A user-challenge `progress` snapshot.  `currentDay`, `totalDays`,
`completedWorkouts` and `totalWorkouts` are always written by `joinChallenge`,
so they are plain fields; the four goal-tracking pairs are optional JS object
keys, so they are `Option ℚ` (`none` = key absent).  Where the source would
read an absent `current*` key against a present `total*` key (producing `NaN`,
unreachable for records created by `joinChallenge`), this model reads `0`. -/
structure Progress where
  currentDay : ℚ
  totalDays : ℚ
  completedWorkouts : ℚ
  totalWorkouts : ℚ
  currentDistance : Option ℚ
  totalDistance : Option ℚ
  currentCalories : Option ℚ
  totalCalories : Option ℚ
  currentMinutes : Option ℚ
  totalMinutes : Option ℚ
  currentSessions : Option ℚ
  totalSessions : Option ℚ
  deriving DecidableEq, Repr

/-- A membership record (one per join).  The source also stores a derived
string `id`; no tracked operation reads it, so it is not modelled.  Dates are
abstract rational timestamps; `calculateEndDate` (challenge.js 811-815) adds
`duration` days to the current time, modelled as `now + duration`. -/
structure UserChallenge where
  userId : String
  challengeId : String
  startDate : ℚ
  endDate : ℚ
  status : Status
  progress : Progress
  joinedAt : ℚ
  completedAt : Option ℚ
  deriving DecidableEq, Repr

/-- The whole mutable state: the challenge catalog (localStorage key
`fitchallenge_challenges`), the user-challenge map (key
`fitchallenge_user_challenges`, a JSON object keyed by user id, modelled as a
total function defaulting to `[]`), and the session's current user. -/
structure AppState where
  challenges : List Challenge
  userChallenges : String → List UserChallenge
  currentUser : Option String

/-- Source `isLoggedIn` (auth.js 194-196). -/
def isLoggedIn (st : AppState) : Bool := st.currentUser.isSome

/-- Source `getChallengeById` (challenge.js 188-191). -/
def getChallengeById (st : AppState) (challengeId : String) : Option Challenge :=
  st.challenges.find? (fun c => c.id == challengeId)

/-- Source `getUserChallenges` (challenge.js 237-250): the given user id, or the
current user when called with no argument (`userId = none`); `[]` when
neither is available. -/
def getUserChallenges (st : AppState) (userId : Option String) : List UserChallenge :=
  match userId with
  | some u => st.userChallenges u
  | none =>
    match st.currentUser with
    | some u => st.userChallenges u
    | none => []

/-- Source `hasJoinedChallenge` (challenge.js 258-261).  Note: it matches ANY record
for the challenge, with no filter on `status`. -/
def hasJoinedChallenge (st : AppState) (challengeId : String) (userId : Option String) : Bool :=
  (getUserChallenges st userId).any (fun uc => uc.challengeId == challengeId)

/-- Source `CHALLENGE_CONFIG.MAX_ACTIVE_CHALLENGES` (challenge.js 17). -/
def MAX_ACTIVE_CHALLENGES : Nat := 5

/-- The four optional goal-tracking pairs produced by
`initializeChallengeProgress`. -/
structure InitProgress where
  currentDistance : Option ℚ
  totalDistance : Option ℚ
  currentCalories : Option ℚ
  totalCalories : Option ℚ
  currentMinutes : Option ℚ
  totalMinutes : Option ℚ
  currentSessions : Option ℚ
  totalSessions : Option ℚ
  deriving DecidableEq, Repr

/-- Source `initializeChallengeProgress` (challenge.js 414-438): each `if
(challenge.goals.X)` guard is JS truthiness, so a goal that is absent or `0`
seeds no pair.  `goals.caloriesBurned` seeds the `currentCalories` /
`totalCalories` pair. -/
def initializeChallengeProgress (challenge : Challenge) : InitProgress :=
  { currentDistance := if truthy challenge.goals.totalDistance then some 0 else none
    totalDistance := if truthy challenge.goals.totalDistance then challenge.goals.totalDistance else none
    currentCalories := if truthy challenge.goals.caloriesBurned then some 0 else none
    totalCalories := if truthy challenge.goals.caloriesBurned then challenge.goals.caloriesBurned else none
    currentMinutes := if truthy challenge.goals.totalMinutes then some 0 else none
    totalMinutes := if truthy challenge.goals.totalMinutes then challenge.goals.totalMinutes else none
    currentSessions := if truthy challenge.goals.totalSessions then some 0 else none
    totalSessions := if truthy challenge.goals.totalSessions then challenge.goals.totalSessions else none }

/-- Source `updateChallengeParticipants` (challenge.js 822-834): `findIndex` then an
in-place `participants += increment`, so only the FIRST catalog entry with the
given id is touched, and a missing id is a no-op. -/
def updateChallengeParticipants : List Challenge → String → ℚ → List Challenge
  | [], _, _ => []
  | c :: rest, challengeId, inc =>
    if c.id == challengeId then { c with participants := c.participants + inc } :: rest
    else c :: updateChallengeParticipants rest challengeId inc

/-- Result of `joinChallenge`; the source returns `{success, message, ...}`
with a distinct message per branch, modelled as distinct constructors. -/
inductive JoinResult where
  | notAuthenticated
  | challengeNotFound
  | alreadyJoined
  | activeLimitExceeded
  | joined (uc : UserChallenge)
  deriving DecidableEq, Repr

/-- The user-challenge record built by `joinChallenge` (challenge.js
313-329): `status = 'active'`, base progress fields `currentDay = 1`,
`totalDays = duration`, `completedWorkouts = 0`, `totalWorkouts =
challenge.goals.totalWorkouts || challenge.duration` (line 325), spread with
the goal-seeded pairs from `initializeChallengeProgress`. -/
def joinedRecord (uid : String) (challenge : Challenge) (challengeId : String)
    (now : ℚ) : UserChallenge :=
  let ip := initializeChallengeProgress challenge
  { userId := uid
    challengeId := challengeId
    startDate := now
    endDate := now + challenge.duration
    status := Status.active
    progress :=
      { currentDay := 1
        totalDays := challenge.duration
        completedWorkouts := 0
        totalWorkouts :=
          if truthy challenge.goals.totalWorkouts then
            challenge.goals.totalWorkouts.getD 0
          else challenge.duration
        currentDistance := ip.currentDistance
        totalDistance := ip.totalDistance
        currentCalories := ip.currentCalories
        totalCalories := ip.totalCalories
        currentMinutes := ip.currentMinutes
        totalMinutes := ip.totalMinutes
        currentSessions := ip.currentSessions
        totalSessions := ip.totalSessions }
    joinedAt := now
    completedAt := none }

/-- Source `joinChallenge` (challenge.js 274-360).  Checks, in source order: login,
challenge lookup, `hasJoinedChallenge`, then the active-count cap; on success
it appends the new record to the caller's list, bumps the challenge's
`participants` by 1 and returns the record. -/
def joinChallenge (st : AppState) (challengeId : String) (now : ℚ) : AppState × JoinResult :=
  match st.currentUser with
  | none => (st, .notAuthenticated)
  | some uid =>
    match getChallengeById st challengeId with
    | none => (st, .challengeNotFound)
    | some challenge =>
      if hasJoinedChallenge st challengeId none then (st, .alreadyJoined)
      else
        let userChallenges := getUserChallenges st none
        let activeChallenges := userChallenges.filter (fun uc => uc.status == Status.active)
        if activeChallenges.length ≥ MAX_ACTIVE_CHALLENGES then (st, .activeLimitExceeded)
        else
          let uc := joinedRecord uid challenge challengeId now
          let st1 : AppState :=
            { st with userChallenges :=
                fun v => if v = uid then st.userChallenges v ++ [uc] else st.userChallenges v }
          let st2 : AppState :=
            { st1 with challenges := updateChallengeParticipants st1.challenges challengeId 1 }
          (st2, .joined uc)

/-- One step of `calculateChallengeProgress`: each `if (progress.totalX)`
block adds `current / total * 100` to the running sum and `1` to
`criteriaCount` when the `total*` field is truthy. -/
def addCriterion (s : ℚ × ℚ) (present : Bool) (cur tot : ℚ) : ℚ × ℚ :=
  if present then (s.1 + cur / tot * 100, s.2 + 1) else s

/-- The `(totalPercentage, criteriaCount)` accumulation of
`calculateChallengeProgress` (challenge.js 531-560), in source order:
workouts, distance, calories, minutes, sessions. -/
def progressCriteria (p : Progress) : ℚ × ℚ :=
  addCriterion
    (addCriterion
      (addCriterion
        (addCriterion
          (addCriterion (0, 0) (truthyQ p.totalWorkouts) p.completedWorkouts p.totalWorkouts)
          (truthy p.totalDistance) (p.currentDistance.getD 0) (p.totalDistance.getD 0))
        (truthy p.totalCalories) (p.currentCalories.getD 0) (p.totalCalories.getD 0))
      (truthy p.totalMinutes) (p.currentMinutes.getD 0) (p.totalMinutes.getD 0))
    (truthy p.totalSessions) (p.currentSessions.getD 0) (p.totalSessions.getD 0)

/-- Source `calculateChallengeProgress` (challenge.js 531-564):
`criteriaCount > 0 ? Math.min(Math.round(totalPercentage / criteriaCount), 100) : 0`.
`Math.round x = ⌊x + 1/2⌋` on rationals, exactly Mathlib's `round`.  Note the
clamp is `min (·) 100` only — there is no lower clamp at 0. -/
def calculateChallengeProgress (userChallenge : UserChallenge) : ℚ :=
  let s := progressCriteria userChallenge.progress
  if s.2 > 0 then min ((round (s.1 / s.2) : ℤ) : ℚ) 100 else 0

/-- Replace the first record for `challengeId` in a user's list, leaving the
rest alone: the `findIndex` + in-place mutation pattern of `leaveChallenge`
and `updateChallengeProgress`. -/
def modifyFirst (l : List UserChallenge) (challengeId : String)
    (f : UserChallenge → UserChallenge) : List UserChallenge :=
  match l with
  | [] => []
  | uc :: rest =>
    if uc.challengeId == challengeId then f uc :: rest
    else uc :: modifyFirst rest challengeId f

/-- Result of `leaveChallenge`.  The source's `!allUserChallenges[user.id]`
branch (missing key) and its `findIndex === -1` branch both report failure
without mutating; the function-valued map cannot distinguish a missing key
from an empty list, so both collapse into `notJoined`. -/
inductive LeaveResult where
  | notAuthenticated
  | notJoined
  | left
  deriving DecidableEq, Repr

/-- Source `leaveChallenge` (challenge.js 367-403): sets the FIRST record matching
the challenge id to `status = abandoned`, stamps `endDate = now`, and bumps
the challenge's `participants` by `-1`.  There is no status filter on the
lookup. -/
def leaveChallenge (st : AppState) (challengeId : String) (now : ℚ) : AppState × LeaveResult :=
  match st.currentUser with
  | none => (st, .notAuthenticated)
  | some uid =>
    let userChallenges := st.userChallenges uid
    if userChallenges.any (fun uc => uc.challengeId == challengeId) then
      let updated := modifyFirst userChallenges challengeId
        (fun uc => { uc with status := Status.abandoned, endDate := now })
      let st1 : AppState :=
        { st with userChallenges :=
            fun u => if u = uid then updated else st.userChallenges u }
      ({ st1 with challenges := updateChallengeParticipants st1.challenges challengeId (-1) },
        .left)
    else (st, .notJoined)

/-- A progress delta as accepted by `updateChallengeProgress`: any of
`{distance, calories, minutes, workoutCompleted}`, each optional
(`none` = key absent). -/
structure ProgressData where
  distance : Option ℚ
  calories : Option ℚ
  minutes : Option ℚ
  workoutCompleted : Bool
  deriving DecidableEq, Repr

/-- The field-by-field mutation of `updateChallengeProgress` (challenge.js
478-497): each numeric field is guarded by JS truthiness (so an absent or
zero delta field is ignored), accumulates additively, and creates the
`current*` key at 0 if it was absent; a truthy `workoutCompleted` increments
`completedWorkouts` and advances `currentDay` capped at `totalDays`. -/
def applyProgressData (p : Progress) (d : ProgressData) : Progress :=
  let p1 := if truthy d.distance then
      { p with currentDistance := some (p.currentDistance.getD 0 + d.distance.getD 0) }
    else p
  let p2 := if truthy d.calories then
      { p1 with currentCalories := some (p1.currentCalories.getD 0 + d.calories.getD 0) }
    else p1
  let p3 := if truthy d.minutes then
      { p2 with currentMinutes := some (p2.currentMinutes.getD 0 + d.minutes.getD 0) }
    else p2
  if d.workoutCompleted then
    { p3 with
      completedWorkouts := p3.completedWorkouts + 1
      currentDay := min (p3.currentDay + 1) p3.totalDays }
  else p3

/-- Result of `updateChallengeProgress`; on success the source returns the
updated progress snapshot and the completion percentage. -/
inductive UpdateResult where
  | notAuthenticated
  | notJoined
  | updated (progress : Progress) (completionPercentage : ℚ)
  deriving DecidableEq, Repr

/-- Source `updateChallengeProgress` (challenge.js 454-520): finds the FIRST record
for the challenge id (no status guard), applies the delta, recomputes the
completion percentage, and if it reaches 100 flips `status` to `completed`
and stamps `completedAt = now`.  Returns the new snapshot and percentage. -/
def updateChallengeProgress (st : AppState) (challengeId : String) (progressData : ProgressData)
    (now : ℚ) : AppState × UpdateResult :=
  match st.currentUser with
  | none => (st, .notAuthenticated)
  | some uid =>
    let userChallenges := st.userChallenges uid
    match userChallenges.find? (fun uc => uc.challengeId == challengeId) with
    | none => (st, .notJoined)
    | some uc0 =>
      let newProgress := applyProgressData uc0.progress progressData
      let completionPercentage :=
        calculateChallengeProgress { uc0 with progress := newProgress }
      let uc2 : UserChallenge :=
        if completionPercentage ≥ 100 then
          { uc0 with progress := newProgress, status := Status.completed,
                     completedAt := some now }
        else { uc0 with progress := newProgress }
      let updated := modifyFirst userChallenges challengeId (fun _ => uc2)
      let st1 : AppState :=
        { st with userChallenges :=
            fun u => if u = uid then updated else st.userChallenges u }
      (st1, .updated newProgress completionPercentage)

/-- One Strava activity as read by `syncChallengeProgress`: `distance` in
meters (always present on a Strava activity) and optional `calories`. -/
structure StravaActivity where
  distance : ℚ
  calories : Option ℚ
  deriving DecidableEq, Repr

/-- The per-source `{distance, calories}` summary stored into `syncedData`. -/
structure SourceData where
  distance : ℚ
  calories : ℚ
  deriving DecidableEq, Repr

/-- The Strava reduction in `syncChallengeProgress` (challenge.js 586-594):
distances are summed in km (`act.distance / 1000`), calories with
`(act.calories || 0)`. -/
def stravaSourceData (activities : List StravaActivity) : SourceData :=
  { distance := (activities.map (fun a => a.distance / 1000)).sum
    calories := (activities.map (fun a => a.calories.getD 0)).sum }

/-- The slice of a Fitbit daily-activity response read by
`syncChallengeProgress`: `summary.caloriesOut` and
`summary.distances[0].distance`, each optional.  (`summary.steps` is also
read into `syncedData` but never flows into the progress delta.) -/
structure FitbitSummary where
  steps : Option ℚ
  caloriesOut : Option ℚ
  firstDistance : Option ℚ
  deriving DecidableEq, Repr

/-- The Fitbit reduction (challenge.js 602-608): each field defaults to 0 via
`|| 0` when absent. -/
def fitbitSourceData (s : FitbitSummary) : SourceData :=
  { distance := s.firstDistance.getD 0
    calories := s.caloriesOut.getD 0 }

/-- JS `a || b` on an optionally-present number `a`: `b` when `a` is absent
or `0` (falsy), else the value of `a`. -/
def jsOr (a : Option ℚ) (b : ℚ) : ℚ :=
  match a with
  | none => b
  | some x => if x != 0 then x else b

/-- The `progressUpdate` object built by `syncChallengeProgress` (challenge.js
615-618): `distance: strava?.distance || fitbit?.distance || 0` and likewise
for calories.  Both keys are ALWAYS present on the resulting object (with
value `0` when no source supplies a truthy value); `minutes` and
`workoutCompleted` are never supplied. -/
def mergedDelta (stravaData fitbitData : Option SourceData) : ProgressData :=
  { distance := some (jsOr (stravaData.map (fun s => s.distance))
      (jsOr (fitbitData.map (fun s => s.distance)) 0))
    calories := some (jsOr (stravaData.map (fun s => s.calories))
      (jsOr (fitbitData.map (fun s => s.calories)) 0))
    minutes := none
    workoutCompleted := false }

/-- Result of `syncChallengeProgress`; `nothingToSync` is the source's
`{success: false, message: 'No data available to sync...'}` branch. -/
inductive SyncResult where
  | challengeNotFound
  | synced (strava fitbit : Option SourceData)
  | nothingToSync
  deriving DecidableEq, Repr

/-- Source `syncChallengeProgress` (challenge.js 571-641).  The two network fetches
are modelled as explicit inputs: `none` means the fetch threw (caught and
logged, treated as no data from that source).  Strava is only consulted for
`running`/`cycling` challenges.  If at least one source key landed in
`syncedData`, the merged delta is handed to `updateChallengeProgress`
(whose own result is ignored) and the sync reports success; otherwise the
state is untouched and the sync reports `nothingToSync`. -/
def syncChallengeProgress (st : AppState) (challengeId : String)
    (stravaResult : Option (List StravaActivity)) (fitbitResult : Option FitbitSummary)
    (now : ℚ) : AppState × SyncResult :=
  match getChallengeById st challengeId with
  | none => (st, .challengeNotFound)
  | some challenge =>
    let stravaData : Option SourceData :=
      if challenge.category == "running" || challenge.category == "cycling" then
        stravaResult.map stravaSourceData
      else none
    let fitbitData : Option SourceData := fitbitResult.map fitbitSourceData
    if stravaData.isSome || fitbitData.isSome then
      let st1 := (updateChallengeProgress st challengeId (mergedDelta stravaData fitbitData) now).1
      (st1, .synced stravaData fitbitData)
    else (st, .nothingToSync)

/-- Observation: the `participants` counter of the first catalog entry with
the given id. -/
def getParticipants (st : AppState) (challengeId : String) : Option ℚ :=
  (getChallengeById st challengeId).map (fun c => c.participants)

/-- All progress fields are nonnegative (an absent optional field counts as
0).  This holds for every record reachable through `joinChallenge` and
nonnegative deltas, but NOT for arbitrary records. -/
def NonnegProgress (p : Progress) : Prop :=
  0 ≤ p.completedWorkouts ∧ 0 ≤ p.totalWorkouts ∧
  0 ≤ p.currentDistance.getD 0 ∧ 0 ≤ p.totalDistance.getD 0 ∧
  0 ≤ p.currentCalories.getD 0 ∧ 0 ≤ p.totalCalories.getD 0 ∧
  0 ≤ p.currentMinutes.getD 0 ∧ 0 ≤ p.totalMinutes.getD 0 ∧
  0 ≤ p.currentSessions.getD 0 ∧ 0 ≤ p.totalSessions.getD 0

/-- No aggregation criterion is present: every `total*` field is falsy
(absent or zero). -/
def NoCriteria (p : Progress) : Prop :=
  truthyQ p.totalWorkouts = false ∧ truthy p.totalDistance = false ∧
  truthy p.totalCalories = false ∧ truthy p.totalMinutes = false ∧
  truthy p.totalSessions = false

/-- An all-zero progress snapshot, as a base for concrete instances. -/
def zeroProgress : Progress :=
  { currentDay := 0, totalDays := 0, completedWorkouts := 0, totalWorkouts := 0
    currentDistance := none, totalDistance := none
    currentCalories := none, totalCalories := none
    currentMinutes := none, totalMinutes := none
    currentSessions := none, totalSessions := none }

/-- A membership record with the given progress, for concrete instances. -/
def mkUC (p : Progress) : UserChallenge :=
  { userId := "u", challengeId := "X", startDate := 0, endDate := 0
    status := Status.active, progress := p, joinedAt := 0, completedAt := none }

/-- A record whose `currentDistance` is negative: a distance criterion of
`-100 / 50`. -/
def c1BadUC : UserChallenge :=
  mkUC { zeroProgress with currentDistance := some (-100), totalDistance := some 50 }

/-- A record over-achieving its workouts criterion (4 of 2) while its
distance criterion is untouched (0 of 50): final-average clamping yields 100,
whereas per-criterion clamping would yield 50. -/
def c1ClampUC : UserChallenge :=
  mkUC { zeroProgress with completedWorkouts := 4, totalWorkouts := 2,
                           currentDistance := some 0, totalDistance := some 50 }

/-- A nonnegative record with one over-achieved criterion, for the C1
witness. -/
def c1WitnessUC : UserChallenge :=
  mkUC { zeroProgress with completedWorkouts := 7, totalWorkouts := 2 }

/-- Goals of the C2 scenario challenge: `{totalDistance: 50, totalWorkouts: 5}`. -/
def c2Goals : Goals :=
  { totalDistance := some 50, totalWorkouts := some 5
    caloriesBurned := none, totalMinutes := none, totalSessions := none }

/-- The C2 scenario challenge: id `"X"`, duration 10. -/
def c2Challenge : Challenge :=
  { id := "X", category := "running", duration := 10, participants := 100, goals := c2Goals }

/-- A state holding only the C2 scenario challenge, with user `"u"` logged in
and no membership records. -/
def c2St : AppState :=
  { challenges := [c2Challenge], userChallenges := fun _ => [], currentUser := some "u" }

/-- The C2 scenario delta: `{distance: 25, workoutCompleted: true}`. -/
def c2Delta : ProgressData :=
  { distance := some 25, calories := none, minutes := none, workoutCompleted := true }

/-- A record for challenge `"X"` in terminal state (`abandoned`). -/
def c4AbandonedUC : UserChallenge :=
  { mkUC { zeroProgress with currentDay := 3, totalDays := 10, totalWorkouts := 10 } with
      status := Status.abandoned }

/-- A state where user `"u"`'s only record for the existing challenge `"X"`
is terminal (`abandoned`) and the active count is 0 (< 5). -/
def c4St : AppState :=
  { challenges := [c2Challenge]
    userChallenges := fun v => if v = "u" then [c4AbandonedUC] else []
    currentUser := some "u" }

/-- A challenge whose only goal kind is `totalDistance`; the `totalWorkouts`
kind is absent from its goals. -/
def c5Challenge : Challenge :=
  { id := "D", category := "running", duration := 10, participants := 0
    goals := { totalDistance := some 50, totalWorkouts := none
               caloriesBurned := none, totalMinutes := none, totalSessions := none } }

/-- A state holding only `c5Challenge`, with user `"u"` logged in. -/
def c5St : AppState :=
  { challenges := [c5Challenge], userChallenges := fun _ => [], currentUser := some "u" }

/-- The C6 scenario challenge: duration 2, `goals.totalWorkouts = 2`. -/
def c6Challenge : Challenge :=
  { id := "W", category := "running", duration := 2, participants := 0
    goals := { totalDistance := none, totalWorkouts := some 2
               caloriesBurned := none, totalMinutes := none, totalSessions := none } }

/-- A state holding only the C6 scenario challenge, with user `"u"` logged
in and no membership records. -/
def c6St : AppState :=
  { challenges := [c6Challenge], userChallenges := fun _ => [], currentUser := some "u" }

/-- A pure `workoutCompleted` delta. -/
def workoutDelta : ProgressData :=
  { distance := none, calories := none, minutes := none, workoutCompleted := true }

/-- The progress snapshot after the C6 scenario's second update. -/
def c6FinalProgress : Progress :=
  { currentDay := 2, totalDays := 2, completedWorkouts := 2, totalWorkouts := 2
    currentDistance := none, totalDistance := none
    currentCalories := none, totalCalories := none
    currentMinutes := none, totalMinutes := none
    currentSessions := none, totalSessions := none }

/-- A Fitbit daily summary that reports calories but no distance reading
(`summary.distances` empty, so `distances?.[0]?.distance || 0` yields 0). -/
def c7Fitbit : FitbitSummary :=
  { steps := some 100, caloriesOut := some 200, firstDistance := none }

/-- A zero-valued delta (`{distance: 0, workoutCompleted: false}`), for the
C10 witness. -/
def c10Delta : ProgressData :=
  { distance := some 0, calories := none, minutes := none, workoutCompleted := false }

/-- A state where user `"u"` holds five active records, for the C3 witness. -/
def c3St : AppState :=
  { challenges := [c2Challenge]
    userChallenges := fun v =>
      if v = "u" then
        [{ mkUC zeroProgress with challengeId := "a" },
         { mkUC zeroProgress with challengeId := "b" },
         { mkUC zeroProgress with challengeId := "c" },
         { mkUC zeroProgress with challengeId := "d" },
         { mkUC zeroProgress with challengeId := "e" }]
      else []
    currentUser := some "u" }

/-- An active record for challenge `"X"` with a nonempty, partially advanced
progress snapshot, for the C10 witness. -/
def c10UC : UserChallenge :=
  mkUC { zeroProgress with currentDay := 4, totalDays := 10,
                           completedWorkouts := 3, totalWorkouts := 5,
                           currentDistance := some 7, totalDistance := some 50 }

/-- A state where user `"u"` holds just `c10UC`, for the C10 witness. -/
def c10St : AppState :=
  { challenges := [c2Challenge]
    userChallenges := fun v => if v = "u" then [c10UC] else []
    currentUser := some "u" }

/-- The progress snapshot the C2 scenario expects right after joining. -/
def c2TargetJoinProgress : Progress :=
  { currentDay := 1, totalDays := 10, completedWorkouts := 0, totalWorkouts := 5
    currentDistance := some 0, totalDistance := some 50
    currentCalories := none, totalCalories := none
    currentMinutes := none, totalMinutes := none
    currentSessions := none, totalSessions := none }

/-- The progress snapshot the C2 scenario expects after the update
`{distance: 25, workoutCompleted: true}`. -/
def c2TargetUpdProgress : Progress :=
  { currentDay := 2, totalDays := 10, completedWorkouts := 1, totalWorkouts := 5
    currentDistance := some 25, totalDistance := some 50
    currentCalories := none, totalCalories := none
    currentMinutes := none, totalMinutes := none
    currentSessions := none, totalSessions := none }

/-- The state after joining the C6 scenario challenge at time 0. -/
def c6AfterJoin : AppState := (joinChallenge c6St "W" 0).1

/-- The state after the first `workoutCompleted` update of the C6 scenario. -/
def c6AfterFirst : AppState := (updateChallengeProgress c6AfterJoin "W" workoutDelta 1).1

/-- A challenge with id `"1"` (mirroring the seeded 30-day running
challenge), for the C8 witness. -/
def c8Challenge : Challenge :=
  { id := "1", category := "running", duration := 30, participants := 2453
    goals := { totalDistance := some 50, totalWorkouts := some 20
               caloriesBurned := none, totalMinutes := none, totalSessions := none } }

/-- A state holding only `c8Challenge`, with user `"u"` logged in. -/
def c8St : AppState :=
  { challenges := [c8Challenge], userChallenges := fun _ => [], currentUser := some "u" }

/-- A yoga challenge (Strava is not consulted for this category), for the C7
counterexample. -/
def c7YogaChallenge : Challenge :=
  { id := "Y", category := "yoga", duration := 14, participants := 0
    goals := { totalDistance := none, totalWorkouts := none
               caloriesBurned := none, totalMinutes := some 280, totalSessions := some 14 } }

/-- A state holding only `c7YogaChallenge`. -/
def c7YogaSt : AppState :=
  { challenges := [c7YogaChallenge], userChallenges := fun _ => [], currentUser := some "u" }

end FitChallenge

/-!
## Helper lemmas

List-level facts about the store operations, plus arithmetic facts about the
aggregation, shared by the claim theorems below.
-/

namespace FitChallenge

/-- Rounding preserves nonnegativity (JS `Math.round x = ⌊x + 1/2⌋`). -/
theorem round_nonneg_of_nonneg {q : ℚ} (h : 0 ≤ q) : 0 ≤ round q := by
  rw [round_eq]
  exact Int.le_floor.mpr (by push_cast; linarith)

/-- One aggregation step keeps the running sum and criteria count
nonnegative when the criterion's values are nonnegative. -/
theorem addCriterion_nonneg {s : ℚ × ℚ} (b : Bool) {cur tot : ℚ}
    (hs1 : 0 ≤ s.1) (hs2 : 0 ≤ s.2) (hc : 0 ≤ cur) (ht : 0 ≤ tot) :
    0 ≤ (addCriterion s b cur tot).1 ∧ 0 ≤ (addCriterion s b cur tot).2 := by
  unfold addCriterion
  split
  · exact ⟨add_nonneg hs1 (mul_nonneg (div_nonneg hc ht) (by norm_num)),
      add_nonneg hs2 zero_le_one⟩
  · exact ⟨hs1, hs2⟩

/-- The accumulated percentage sum and criteria count are nonnegative on a
nonnegative progress snapshot. -/
theorem progressCriteria_nonneg {p : Progress} (h : NonnegProgress p) :
    0 ≤ (progressCriteria p).1 ∧ 0 ≤ (progressCriteria p).2 := by
  obtain ⟨h1, h2, h3, h4, h5, h6, h7, h8, h9, h10⟩ := h
  unfold progressCriteria
  have a1 := addCriterion_nonneg (s := ((0 : ℚ), (0 : ℚ)))
    (truthyQ p.totalWorkouts) le_rfl le_rfl h1 h2
  have a2 := addCriterion_nonneg (truthy p.totalDistance) a1.1 a1.2 h3 h4
  have a3 := addCriterion_nonneg (truthy p.totalCalories) a2.1 a2.2 h5 h6
  have a4 := addCriterion_nonneg (truthy p.totalMinutes) a3.1 a3.2 h7 h8
  exact addCriterion_nonneg (truthy p.totalSessions) a4.1 a4.2 h9 h10

/-- Pointwise consequence of a false `List.any`. -/
theorem eq_false_of_any_eq_false {l : List UserChallenge} {p : UserChallenge → Bool}
    (h : l.any p = false) : ∀ x ∈ l, p x = false := by
  intro x hx
  cases hpx : p x with
  | false => rfl
  | true =>
    have : l.any p = true := List.any_eq_true.mpr ⟨x, hx, hpx⟩
    rw [this] at h
    exact absurd h (by simp)

/-- Finding in a list whose prefix has no match reduces to the appended
element. -/
theorem find?_append_singleton {l : List UserChallenge} {a : UserChallenge}
    {p : UserChallenge → Bool} (h : ∀ x ∈ l, p x = false) :
    (l ++ [a]).find? p = if p a then some a else none := by
  induction l with
  | nil => cases hpa : p a <;> simp [List.find?, hpa]
  | cons b t ih =>
    have hb := h b (List.mem_cons_self b t)
    simp only [List.cons_append, List.find?, hb]
    exact ih (fun x hx => h x (List.mem_cons_of_mem b hx))

/-- Modifying the first match in a list whose prefix has no match rewrites
exactly the appended element. -/
theorem modifyFirst_append_singleton {l : List UserChallenge} {a : UserChallenge}
    {cid : String} {f : UserChallenge → UserChallenge}
    (h : ∀ x ∈ l, (x.challengeId == cid) = false) (ha : (a.challengeId == cid) = true) :
    modifyFirst (l ++ [a]) cid f = l ++ [f a] := by
  induction l with
  | nil => simp [modifyFirst, ha]
  | cons b t ih =>
    have hb := h b (List.mem_cons_self b t)
    simp [modifyFirst, hb, ih (fun x hx => h x (List.mem_cons_of_mem b hx))]

/-- When the rewrite preserves the matched id, finding after `modifyFirst`
is finding before, mapped through the rewrite. -/
theorem find?_modifyFirst {l : List UserChallenge} {cid : String}
    {f : UserChallenge → UserChallenge}
    (hf : ∀ uc : UserChallenge, (uc.challengeId == cid) = true →
      ((f uc).challengeId == cid) = true) :
    (modifyFirst l cid f).find? (fun uc => uc.challengeId == cid)
      = (l.find? (fun uc => uc.challengeId == cid)).map f := by
  induction l with
  | nil => simp [modifyFirst]
  | cons b t ih =>
    cases hb : (b.challengeId == cid) with
    | true => simp [modifyFirst, hb, List.find?, hf b hb]
    | false => simp [modifyFirst, hb, List.find?, ih]

/-- Every element of `modifyFirst l cid f` is an element of `l` or the image
under `f` of one. -/
theorem mem_modifyFirst {l : List UserChallenge} {cid : String}
    {f : UserChallenge → UserChallenge} {x : UserChallenge}
    (hx : x ∈ modifyFirst l cid f) : x ∈ l ∨ ∃ y ∈ l, x = f y := by
  induction l with
  | nil => simp [modifyFirst] at hx
  | cons b t ih =>
    by_cases hb : (b.challengeId == cid) = true
    · simp only [modifyFirst, hb, if_pos] at hx
      rcases List.mem_cons.mp hx with h | h
      · exact Or.inr ⟨b, List.mem_cons_self b t, h⟩
      · exact Or.inl (List.mem_cons_of_mem b h)
    · simp only [modifyFirst, if_neg hb] at hx
      rcases List.mem_cons.mp hx with h | h
      · exact Or.inl (h ▸ List.mem_cons_self b t)
      · rcases ih h with h2 | ⟨y, hy, hxy⟩
        · exact Or.inl (List.mem_cons_of_mem b h2)
        · exact Or.inr ⟨y, List.mem_cons_of_mem b hy, hxy⟩

/-- Bumping the participants counter touches exactly the first entry with
the given id. -/
theorem find?_updateChallengeParticipants (cs : List Challenge) (cid : String) (inc : ℚ) :
    (updateChallengeParticipants cs cid inc).find? (fun c => c.id == cid)
      = (cs.find? (fun c => c.id == cid)).map
          (fun c => { c with participants := c.participants + inc }) := by
  induction cs with
  | nil => simp [updateChallengeParticipants]
  | cons c t ih =>
    cases hc : (c.id == cid) with
    | true => simp [updateChallengeParticipants, hc, List.find?]
    | false => simp [updateChallengeParticipants, hc, List.find?, ih]

/-- Characterization of a successful `joinChallenge`: under the four guards
it appends `joinedRecord` to the caller's list and bumps the challenge's
participants counter by 1. -/
theorem joinChallenge_spec (st : AppState) (u : String) (ch : Challenge) (cid : String) (now : ℚ)
    (hu : st.currentUser = some u)
    (hch : getChallengeById st cid = some ch)
    (hnj : hasJoinedChallenge st cid none = false)
    (hcap : ((st.userChallenges u).filter
        (fun uc => uc.status == Status.active)).length < MAX_ACTIVE_CHALLENGES) :
    joinChallenge st cid now =
      ({ challenges := updateChallengeParticipants st.challenges cid 1
         userChallenges := fun v =>
           if v = u then st.userChallenges v ++ [joinedRecord u ch cid now]
           else st.userChallenges v
         currentUser := st.currentUser },
       JoinResult.joined (joinedRecord u ch cid now)) := by
  have hguc : getUserChallenges st none = st.userChallenges u := by
    simp [getUserChallenges, hu]
  have hcap2 : ¬ ((getUserChallenges st none).filter
      (fun uc => uc.status == Status.active)).length ≥ MAX_ACTIVE_CHALLENGES := by
    rw [hguc]
    omega
  simp only [joinChallenge, hu, hch, hnj, Bool.false_eq_true, if_false, hcap2, if_neg,
    not_false_eq_true]

/-- Characterization of `updateChallengeProgress` when the caller is logged
in and holds a record for the challenge. -/
theorem updateChallengeProgress_spec (st : AppState) (u : String) (uc0 : UserChallenge)
    (cid : String) (d : ProgressData) (now : ℚ)
    (hu : st.currentUser = some u)
    (hfind : (st.userChallenges u).find? (fun uc => uc.challengeId == cid) = some uc0) :
    updateChallengeProgress st cid d now =
      (let newProgress := applyProgressData uc0.progress d
       let pct := calculateChallengeProgress { uc0 with progress := newProgress }
       let uc2 := if pct ≥ 100 then
           { uc0 with progress := newProgress, status := Status.completed, completedAt := some now }
         else { uc0 with progress := newProgress }
       ({ st with userChallenges := fun v =>
            if v = u then modifyFirst (st.userChallenges u) cid (fun _ => uc2)
            else st.userChallenges v },
        UpdateResult.updated newProgress pct)) := by
  simp only [updateChallengeProgress, hu, hfind]

end FitChallenge

/-!
## Claim theorems
-/

namespace FitChallenge

/-- C1 (counterexample).  The claim asserts `calculateChallengeProgress` is
in `[0, 100]` for ANY progress values.  The source clamps only from above
(`Math.min(…, 100)`); there is no lower clamp, so a record whose
`currentDistance` is `-100` against `totalDistance = 50` yields `-200`,
outside `[0, 100]`. -/
theorem C1_counterexample :
    calculateChallengeProgress c1BadUC = -200 ∧
    ¬(0 ≤ calculateChallengeProgress c1BadUC ∧ calculateChallengeProgress c1BadUC ≤ 100) := by
  have h : calculateChallengeProgress c1BadUC = -200 := by
    norm_num [calculateChallengeProgress, progressCriteria, addCriterion, truthy, truthyQ,
      c1BadUC, mkUC, zeroProgress, round_eq, min_def]
  refine ⟨h, ?_⟩
  rw [h]
  norm_num

/-- C1 (amended).  `calculateChallengeProgress` never exceeds 100 for any
progress values; it is nonnegative whenever all progress fields are
nonnegative (which holds for every record the operations construct from
nonnegative deltas); with zero criteria the result is 0; and the clamp at
100 applies to the final average only — on `c1ClampUC` (workouts 4 of 2,
distance 0 of 50) the result is 100, where per-criterion clamping would
give 50. -/
theorem C1_range :
    (∀ uc : UserChallenge, calculateChallengeProgress uc ≤ 100)
    ∧ (∀ uc : UserChallenge, NonnegProgress uc.progress → 0 ≤ calculateChallengeProgress uc)
    ∧ (∀ uc : UserChallenge, NoCriteria uc.progress → calculateChallengeProgress uc = 0)
    ∧ calculateChallengeProgress c1ClampUC = 100 := by
  refine ⟨?_, ?_, ?_, ?_⟩
  · intro uc
    simp only [calculateChallengeProgress]
    split
    · exact min_le_right _ _
    · norm_num
  · intro uc h
    obtain ⟨hs1, hs2⟩ := progressCriteria_nonneg h
    simp only [calculateChallengeProgress]
    split
    · exact le_min (by exact_mod_cast round_nonneg_of_nonneg (div_nonneg hs1 hs2)) (by norm_num)
    · exact le_refl 0
  · intro uc h
    obtain ⟨h1, h2, h3, h4, h5⟩ := h
    simp [calculateChallengeProgress, progressCriteria, addCriterion, h1, h2, h3, h4, h5]
  · norm_num [calculateChallengeProgress, progressCriteria, addCriterion, truthy, truthyQ,
      c1ClampUC, mkUC, zeroProgress, round_eq, min_def]

/-- C1 (witness).  Instantiates the amended bounds at a nonnegative
over-achieving record and the zero-criteria clause at the empty snapshot. -/
theorem C1_witness :
    (NonnegProgress c1WitnessUC.progress ∧ 0 ≤ calculateChallengeProgress c1WitnessUC)
    ∧ (NoCriteria zeroProgress ∧ calculateChallengeProgress (mkUC zeroProgress) = 0) := by
  have hn : NonnegProgress c1WitnessUC.progress := by
    norm_num [NonnegProgress, c1WitnessUC, mkUC, zeroProgress]
  have hz : NoCriteria zeroProgress := by
    norm_num [NoCriteria, zeroProgress, truthy, truthyQ]
  exact ⟨⟨hn, C1_range.2.1 c1WitnessUC hn⟩, ⟨hz, C1_range.2.2.1 (mkUC zeroProgress) hz⟩⟩

/-- C2.  For a challenge `"X"` with duration 10 and goals
`{totalDistance: 50, totalWorkouts: 5}`, an authenticated user with no
record for `"X"` and under the active cap: joining yields progress
`{currentDay: 1, totalDays: 10, completedWorkouts: 0, totalWorkouts: 5,
currentDistance: 0, totalDistance: 50}`, and a subsequent update
`{distance: 25, workoutCompleted: true}` yields `currentDistance = 25`,
`completedWorkouts = 1`, `currentDay = 2`, completion percentage 35, with
the stored record still `active`. -/
theorem C2_scenario (st : AppState) (u : String) (ch : Challenge) (t₁ t₂ : ℚ)
    (hu : st.currentUser = some u)
    (hch : getChallengeById st "X" = some ch)
    (hdur : ch.duration = 10)
    (hgoals : ch.goals = c2Goals)
    (hnj : hasJoinedChallenge st "X" none = false)
    (hcap : ((st.userChallenges u).filter
        (fun uc => uc.status == Status.active)).length < MAX_ACTIVE_CHALLENGES) :
    (joinChallenge st "X" t₁).2 = JoinResult.joined (joinedRecord u ch "X" t₁)
    ∧ (joinedRecord u ch "X" t₁).progress = c2TargetJoinProgress
    ∧ (updateChallengeProgress (joinChallenge st "X" t₁).1 "X" c2Delta t₂).2
      = UpdateResult.updated c2TargetUpdProgress 35
    ∧ (((updateChallengeProgress (joinChallenge st "X" t₁).1 "X" c2Delta t₂).1.userChallenges u).find?
        (fun uc => uc.challengeId == "X")).map (fun uc => uc.status) = some Status.active := by
  have hl : ∀ x ∈ st.userChallenges u, (x.challengeId == "X") = false := by
    apply eq_false_of_any_eq_false
    simpa [hasJoinedChallenge, getUserChallenges, hu] using hnj
  have hrec : ((joinedRecord u ch "X" t₁).challengeId == "X") = true := by
    simp [joinedRecord]
  have hprog : (joinedRecord u ch "X" t₁).progress = c2TargetJoinProgress := by
    norm_num [joinedRecord, initializeChallengeProgress, hgoals, hdur, c2Goals, truthy,
      c2TargetJoinProgress]
  have hfind2 : ∀ a : UserChallenge, (a.challengeId == "X") = true →
      (st.userChallenges u ++ [a]).find? (fun uc => uc.challengeId == "X") = some a := by
    intro a ha
    rw [find?_append_singleton hl, if_pos ha]
  have hmod : ∀ f : UserChallenge → UserChallenge,
      modifyFirst (st.userChallenges u ++ [joinedRecord u ch "X" t₁]) "X" f
        = st.userChallenges u ++ [f (joinedRecord u ch "X" t₁)] :=
    fun f => modifyFirst_append_singleton hl hrec
  rw [joinChallenge_spec st u ch "X" t₁ hu hch hnj hcap]
  refine ⟨rfl, hprog, ?_, ?_⟩
  · norm_num [updateChallengeProgress, hu, hfind2, hrec, hprog, applyProgressData, c2Delta,
      truthy, truthyQ, calculateChallengeProgress, progressCriteria, addCriterion,
      round_eq, min_def, c2TargetJoinProgress, c2TargetUpdProgress]
  · have hstat : (joinedRecord u ch "X" t₁).status = Status.active := rfl
    norm_num [updateChallengeProgress, hu, hfind2, hmod, hrec, hprog, hstat, applyProgressData,
      c2Delta, truthy, truthyQ, calculateChallengeProgress, progressCriteria, addCriterion,
      round_eq, min_def, c2TargetJoinProgress, c2TargetUpdProgress]

/-- C2 (witness).  Runs the scenario in the concrete state `c2St`. -/
theorem C2_witness :
    (joinChallenge c2St "X" 0).2 = JoinResult.joined (joinedRecord "u" c2Challenge "X" 0)
    ∧ (joinedRecord "u" c2Challenge "X" 0).progress = c2TargetJoinProgress
    ∧ (updateChallengeProgress (joinChallenge c2St "X" 0).1 "X" c2Delta 1).2
      = UpdateResult.updated c2TargetUpdProgress 35
    ∧ (((updateChallengeProgress (joinChallenge c2St "X" 0).1 "X" c2Delta 1).1.userChallenges
        "u").find? (fun uc => uc.challengeId == "X")).map (fun uc => uc.status)
      = some Status.active :=
  C2_scenario c2St "u" c2Challenge 0 1 (by rfl) (by decide) (by rfl) (by rfl)
    (by decide) (by decide)

/-- C3.  When an authenticated user already holds five `active` records, a
join attempt on an existing, not-yet-joined challenge returns the
active-limit failure and returns the state COMPLETELY unchanged: no record
is created and no participants counter moves. -/
theorem C3_activeLimit (st : AppState) (u : String) (ch : Challenge) (cid : String) (now : ℚ)
    (hu : st.currentUser = some u)
    (hch : getChallengeById st cid = some ch)
    (hnj : hasJoinedChallenge st cid none = false)
    (hfive : ((st.userChallenges u).filter (fun uc => uc.status == Status.active)).length = 5) :
    joinChallenge st cid now = (st, JoinResult.activeLimitExceeded) := by
  have hcap : ((getUserChallenges st none).filter
      (fun uc => uc.status == Status.active)).length ≥ MAX_ACTIVE_CHALLENGES := by
    simp [getUserChallenges, hu, hfive, MAX_ACTIVE_CHALLENGES]
  simp only [joinChallenge, hu, hch, hnj, Bool.false_eq_true, if_false]
  rw [if_pos hcap]

/-- C3 (witness).  A sixth join in `c3St` (five active records held) fails
with the limit error and leaves the state untouched. -/
theorem C3_witness :
    joinChallenge c3St "X" 0 = (c3St, JoinResult.activeLimitExceeded) :=
  C3_activeLimit c3St "u" c2Challenge "X" 0 (by rfl) (by decide) (by decide) (by decide)

/-- C4 (counterexample).  The claim asserts a user whose only records for a
challenge are terminal can join it again.  In `c4St`, user `"u"`'s sole
record for the existing challenge `"X"` is `abandoned` and the active count
is 0, yet `joinChallenge` fails with `alreadyJoined`: the source's
`hasJoinedChallenge` matches records of ANY status. -/
theorem C4_counterexample :
    (getUserChallenges c4St (some "u")).map (fun uc => uc.status) = [Status.abandoned]
    ∧ ((getUserChallenges c4St (some "u")).filter
        (fun uc => uc.status == Status.active)).length < MAX_ACTIVE_CHALLENGES
    ∧ (joinChallenge c4St "X" 2).2 = JoinResult.alreadyJoined := by
  refine ⟨by decide, by decide, by decide⟩

/-- C4 (amended).  For an authenticated caller and an existing challenge,
`joinChallenge` fails with `alreadyJoined` exactly when the caller holds ANY
existing record for that challenge, regardless of status; terminal
(`completed`/`abandoned`) records block rejoining just like active ones. -/
theorem C4_alreadyJoined_iff (st : AppState) (u : String) (ch : Challenge) (cid : String) (now : ℚ)
    (hu : st.currentUser = some u)
    (hch : getChallengeById st cid = some ch) :
    ((joinChallenge st cid now).2 = JoinResult.alreadyJoined
      ↔ hasJoinedChallenge st cid none = true) := by
  simp only [joinChallenge, hu, hch]
  cases hj : hasJoinedChallenge st cid none with
  | true => simp
  | false =>
    simp only [Bool.false_eq_true, if_false]
    split
    · simp
    · simp

/-- C4 (witness).  Instantiates the amended equivalence in `c4St`. -/
theorem C4_amended_witness :
    (joinChallenge c4St "X" 0).2 = JoinResult.alreadyJoined
      ↔ hasJoinedChallenge c4St "X" none = true :=
  C4_alreadyJoined_iff c4St "u" c2Challenge "X" 0 (by rfl) (by decide)

end FitChallenge

namespace FitChallenge

/-- C5 (counterexample).  The claim asserts a joined progress contains
tracking pairs for exactly the goal kinds present in the challenge's goals.
`c5Challenge` has only a `totalDistance` goal — `totalWorkouts` is absent —
yet the joined record carries a workouts tracking pair with nonzero target
10 (`totalWorkouts || duration` defaulting), which participates in the
aggregation as a criterion. -/
theorem C5_counterexample :
    c5Challenge.goals.totalWorkouts = none
    ∧ (joinChallenge c5St "D" 0).2 = JoinResult.joined (joinedRecord "u" c5Challenge "D" 0)
    ∧ (joinedRecord "u" c5Challenge "D" 0).progress.totalWorkouts = 10
    ∧ truthyQ (joinedRecord "u" c5Challenge "D" 0).progress.totalWorkouts = true := by
  refine ⟨rfl, ?_, ?_, ?_⟩
  · rw [joinChallenge_spec c5St "u" c5Challenge "D" 0 rfl (by decide) (by decide) (by decide)]
  · norm_num [joinedRecord, c5Challenge, truthy]
  · norm_num [joinedRecord, c5Challenge, truthy, truthyQ]

/-- C5 (amended).  A successful join seeds the distance, calories, minutes
and sessions pairs as `(0, target)` exactly when the corresponding goal
(`totalDistance`, `caloriesBurned`, `totalMinutes`, `totalSessions`) is
truthy, and omits them otherwise; the workouts pair is ALWAYS present, as
`(0, goals.totalWorkouts)` when that goal is truthy and `(0, duration)`
otherwise. -/
theorem C5_join_pairs (st : AppState) (cid : String) (now : ℚ) (ch : Challenge)
    (uc : UserChallenge)
    (hch : getChallengeById st cid = some ch)
    (hjoin : (joinChallenge st cid now).2 = JoinResult.joined uc) :
    (uc.progress.currentDistance = (if truthy ch.goals.totalDistance then some 0 else none)
      ∧ uc.progress.totalDistance
        = (if truthy ch.goals.totalDistance then ch.goals.totalDistance else none))
    ∧ (uc.progress.currentCalories = (if truthy ch.goals.caloriesBurned then some 0 else none)
      ∧ uc.progress.totalCalories
        = (if truthy ch.goals.caloriesBurned then ch.goals.caloriesBurned else none))
    ∧ (uc.progress.currentMinutes = (if truthy ch.goals.totalMinutes then some 0 else none)
      ∧ uc.progress.totalMinutes
        = (if truthy ch.goals.totalMinutes then ch.goals.totalMinutes else none))
    ∧ (uc.progress.currentSessions = (if truthy ch.goals.totalSessions then some 0 else none)
      ∧ uc.progress.totalSessions
        = (if truthy ch.goals.totalSessions then ch.goals.totalSessions else none))
    ∧ uc.progress.completedWorkouts = 0
    ∧ uc.progress.totalWorkouts
        = (if truthy ch.goals.totalWorkouts then ch.goals.totalWorkouts.getD 0
           else ch.duration) := by
  cases hcu : st.currentUser with
  | none =>
    simp only [joinChallenge, hcu] at hjoin
    exact absurd hjoin (by simp)
  | some u =>
    simp only [joinChallenge, hcu, hch] at hjoin
    cases hj : hasJoinedChallenge st cid none with
    | true =>
      simp only [hj, if_true] at hjoin
      exact absurd hjoin (by simp)
    | false =>
      simp only [hj, Bool.false_eq_true, if_false] at hjoin
      split at hjoin
      · simp at hjoin
      · simp only [JoinResult.joined.injEq] at hjoin
        subst hjoin
        simp [joinedRecord, initializeChallengeProgress]

/-- C5 (witness).  Instantiates the seeding correspondence at the
distance-only challenge `c5Challenge`. -/
theorem C5_amended_witness :
    ((joinedRecord "u" c5Challenge "D" 0).progress.currentDistance
        = (if truthy c5Challenge.goals.totalDistance then some 0 else none)
      ∧ (joinedRecord "u" c5Challenge "D" 0).progress.totalDistance
        = (if truthy c5Challenge.goals.totalDistance then c5Challenge.goals.totalDistance
           else none))
    ∧ ((joinedRecord "u" c5Challenge "D" 0).progress.currentCalories
        = (if truthy c5Challenge.goals.caloriesBurned then some 0 else none)
      ∧ (joinedRecord "u" c5Challenge "D" 0).progress.totalCalories
        = (if truthy c5Challenge.goals.caloriesBurned then c5Challenge.goals.caloriesBurned
           else none))
    ∧ ((joinedRecord "u" c5Challenge "D" 0).progress.currentMinutes
        = (if truthy c5Challenge.goals.totalMinutes then some 0 else none)
      ∧ (joinedRecord "u" c5Challenge "D" 0).progress.totalMinutes
        = (if truthy c5Challenge.goals.totalMinutes then c5Challenge.goals.totalMinutes
           else none))
    ∧ ((joinedRecord "u" c5Challenge "D" 0).progress.currentSessions
        = (if truthy c5Challenge.goals.totalSessions then some 0 else none)
      ∧ (joinedRecord "u" c5Challenge "D" 0).progress.totalSessions
        = (if truthy c5Challenge.goals.totalSessions then c5Challenge.goals.totalSessions
           else none))
    ∧ (joinedRecord "u" c5Challenge "D" 0).progress.completedWorkouts = 0
    ∧ (joinedRecord "u" c5Challenge "D" 0).progress.totalWorkouts
        = (if truthy c5Challenge.goals.totalWorkouts then c5Challenge.goals.totalWorkouts.getD 0
           else c5Challenge.duration) :=
  C5_join_pairs c5St "D" 0 c5Challenge (joinedRecord "u" c5Challenge "D" 0) (by decide)
    (by rw [joinChallenge_spec c5St "u" c5Challenge "D" 0 rfl (by decide) (by decide) (by decide)])

/-- C6.  After any progress mutation through `updateChallengeProgress`, the
percentage is recomputed and, when it reaches 100, the stored record flips
to `completed` with `completedAt` stamped to the mutation time; and in the
concrete scenario (duration 2, `goals.totalWorkouts = 2`), two sequential
`workoutCompleted` updates report percentage 100 and leave the stored record
`completed` with `completedAt` stamped. -/
theorem C6_completion :
    (∀ (st : AppState) (u cid : String) (d : ProgressData) (now : ℚ) (p : Progress) (pct : ℚ),
      st.currentUser = some u →
      (updateChallengeProgress st cid d now).2 = UpdateResult.updated p pct →
      100 ≤ pct →
      (((updateChallengeProgress st cid d now).1.userChallenges u).find?
          (fun uc => uc.challengeId == cid)).map (fun uc => (uc.status, uc.completedAt))
        = some (Status.completed, some now))
    ∧ ((updateChallengeProgress c6AfterFirst "W" workoutDelta 2).2
        = UpdateResult.updated c6FinalProgress 100
      ∧ (((updateChallengeProgress c6AfterFirst "W" workoutDelta 2).1.userChallenges "u").map
          (fun uc => (uc.status, uc.completedAt))) = [(Status.completed, some 2)]) := by
  constructor
  · intro st u cid d now p pct hu hupd hpct
    simp only [updateChallengeProgress, hu] at hupd ⊢
    cases hf : (st.userChallenges u).find? (fun uc => uc.challengeId == cid) with
    | none =>
      rw [hf] at hupd
      exact absurd hupd (by simp)
    | some uc0 =>
      simp only [hf, if_true] at hupd ⊢
      simp only [UpdateResult.updated.injEq] at hupd
      obtain ⟨hp, hpcteq⟩ := hupd
      have hpred : (uc0.challengeId == cid) = true := by
        simpa using List.find?_some hf
      rw [find?_modifyFirst (by intro uc hb; split <;> exact hpred), hf]
      have hge : calculateChallengeProgress
          { uc0 with progress := applyProgressData uc0.progress d } ≥ 100 := by
        rw [hpcteq]
        exact hpct
      simp [hge]
  · constructor
    · norm_num [c6AfterFirst, c6AfterJoin, c6St, c6Challenge, c6FinalProgress, workoutDelta,
        updateChallengeProgress, joinChallenge, getChallengeById, getUserChallenges,
        hasJoinedChallenge, initializeChallengeProgress, joinedRecord, truthy, truthyQ,
        applyProgressData, calculateChallengeProgress, progressCriteria, addCriterion,
        modifyFirst, updateChallengeParticipants, MAX_ACTIVE_CHALLENGES, round_eq, min_def]
    · norm_num [c6AfterFirst, c6AfterJoin, c6St, c6Challenge, workoutDelta,
        updateChallengeProgress, joinChallenge, getChallengeById, getUserChallenges,
        hasJoinedChallenge, initializeChallengeProgress, joinedRecord, truthy, truthyQ,
        applyProgressData, calculateChallengeProgress, progressCriteria, addCriterion,
        modifyFirst, updateChallengeParticipants, MAX_ACTIVE_CHALLENGES, round_eq, min_def]

/-- C6 (witness).  Applies the completion transition rule to the second
scenario update, whose reported percentage is 100. -/
theorem C6_witness :
    (((updateChallengeProgress c6AfterFirst "W" workoutDelta 2).1.userChallenges "u").find?
        (fun uc => uc.challengeId == "W")).map (fun uc => (uc.status, uc.completedAt))
      = some (Status.completed, some 2) :=
  C6_completion.1 c6AfterFirst "u" "W" workoutDelta 2 c6FinalProgress 100
    (by norm_num [c6AfterFirst, c6AfterJoin, c6St, c6Challenge, workoutDelta,
      updateChallengeProgress, joinChallenge, getChallengeById, getUserChallenges,
      hasJoinedChallenge, initializeChallengeProgress, joinedRecord, truthy, truthyQ,
      applyProgressData, calculateChallengeProgress, progressCriteria, addCriterion,
      modifyFirst, updateChallengeParticipants, MAX_ACTIVE_CHALLENGES, round_eq, min_def])
    C6_completion.2.1 (by norm_num)

end FitChallenge

namespace FitChallenge

/-- C7 (counterexample).  The claim asserts fields supplied by no source are
OMITTED from the merged delta.  With Strava unavailable and a Fitbit summary
carrying calories but no distance reading, the source builds
`{distance: strava?.distance || fitbit?.distance || 0}`, so the delta's
`distance` key is PRESENT with value 0 (`some 0`), not omitted (`none`); in
an actual sync of a yoga challenge this Fitbit summary is the only source
handed to the merge. -/
theorem C7_counterexample :
    (fitbitSourceData c7Fitbit).distance = 0
    ∧ (fitbitSourceData c7Fitbit).calories = 200
    ∧ (mergedDelta none (some (fitbitSourceData c7Fitbit))).distance = some 0
    ∧ (mergedDelta none (some (fitbitSourceData c7Fitbit))).distance ≠ none
    ∧ (syncChallengeProgress c7YogaSt "Y" none (some c7Fitbit) 0).2
      = SyncResult.synced none (some (fitbitSourceData c7Fitbit)) := by
  refine ⟨?_, ?_, ?_, Option.some_ne_none _, by decide⟩ <;>
    norm_num [fitbitSourceData, c7Fitbit, mergedDelta, jsOr]

/-- C7 (amended).  The merged delta takes each field from the first source
with a truthy (nonzero) value, Strava before Fitbit; a field supplied by no
source is set to 0 in the delta (not omitted), which the progress mutator
ignores, leaving that progress field unchanged; and when no source is
available at all the sync reports the nothing-to-sync failure without
invoking the mutator, leaving the state unchanged. -/
theorem C7_merge :
    (∀ (sd : SourceData) (f : Option SourceData), sd.distance ≠ 0 →
      (mergedDelta (some sd) f).distance = some sd.distance)
    ∧ (∀ (sd : SourceData) (f : Option SourceData), sd.calories ≠ 0 →
      (mergedDelta (some sd) f).calories = some sd.calories)
    ∧ (∀ fd : SourceData, fd.distance ≠ 0 →
      (mergedDelta none (some fd)).distance = some fd.distance
      ∧ ∀ sd : SourceData, sd.distance = 0 →
        (mergedDelta (some sd) (some fd)).distance = some fd.distance)
    ∧ (∀ (s f : Option SourceData) (p : Progress), (mergedDelta s f).distance = some 0 →
      (applyProgressData p (mergedDelta s f)).currentDistance = p.currentDistance)
    ∧ (∀ (st : AppState) (cid : String) (ch : Challenge) (now : ℚ),
      getChallengeById st cid = some ch →
      syncChallengeProgress st cid none none now = (st, SyncResult.nothingToSync)) := by
  refine ⟨?_, ?_, ?_, ?_, ?_⟩
  · intro sd f h
    simp [mergedDelta, jsOr, h]
  · intro sd f h
    simp [mergedDelta, jsOr, h]
  · intro fd h
    constructor
    · simp [mergedDelta, jsOr, h]
    · intro sd hz
      simp [mergedDelta, jsOr, h, hz]
  · intro s f p h
    have hd : truthy (mergedDelta s f).distance = false := by
      rw [h]; simp [truthy]
    have hm : truthy (mergedDelta s f).minutes = false := rfl
    have hw : (mergedDelta s f).workoutCompleted = false := rfl
    simp only [applyProgressData, hd, hm, hw, Bool.false_eq_true, if_false]
    split
    · rfl
    · rfl
  · intro st cid ch now hch
    simp [syncChallengeProgress, hch]

/-- C7 (witness).  Instantiates Strava-first selection, the Fitbit fallback,
the unchanged-progress consequence of a zero distance, and the
nothing-to-sync case. -/
theorem C7_witness :
    ((mergedDelta (some { distance := 3, calories := 0 })
        (some { distance := 9, calories := 4 })).distance = some 3)
    ∧ ((mergedDelta none (some { distance := 9, calories := 4 })).distance = some 9)
    ∧ ((applyProgressData zeroProgress
        (mergedDelta none (some { distance := 0, calories := 4 }))).currentDistance
      = zeroProgress.currentDistance)
    ∧ syncChallengeProgress c2St "X" none none 0 = (c2St, SyncResult.nothingToSync) := by
  refine ⟨?_, ?_, ?_, ?_⟩
  · exact C7_merge.1 { distance := 3, calories := 0 } _ (by norm_num)
  · exact (C7_merge.2.2.1 { distance := 9, calories := 4 } (by norm_num)).1
  · exact C7_merge.2.2.2.1 none _ zeroProgress (by norm_num [mergedDelta, jsOr])
  · exact C7_merge.2.2.2.2 c2St "X" c2Challenge 0 (by decide)

/-- C8.  Joining challenge `"1"` and then leaving it restores `"1"`'s
participants counter to its original value (the leave decrements exactly
what the join incremented), and leaves the user's record for `"1"` with
status `abandoned` and `endDate` stamped to the leave time. -/
theorem C8_join_leave (st : AppState) (u : String) (ch : Challenge) (t₁ t₂ : ℚ)
    (hu : st.currentUser = some u)
    (hch : getChallengeById st "1" = some ch)
    (hnj : hasJoinedChallenge st "1" none = false)
    (hcap : ((st.userChallenges u).filter
        (fun uc => uc.status == Status.active)).length < MAX_ACTIVE_CHALLENGES) :
    getParticipants (leaveChallenge (joinChallenge st "1" t₁).1 "1" t₂).1 "1"
      = getParticipants st "1"
    ∧ (((leaveChallenge (joinChallenge st "1" t₁).1 "1" t₂).1.userChallenges u).find?
        (fun uc => uc.challengeId == "1")).map (fun uc => (uc.status, uc.endDate))
      = some (Status.abandoned, t₂) := by
  have hany : (st.userChallenges u).any (fun uc => uc.challengeId == "1") = false := by
    simpa [hasJoinedChallenge, getUserChallenges, hu] using hnj
  have hl : ∀ x ∈ st.userChallenges u, (x.challengeId == "1") = false :=
    eq_false_of_any_eq_false hany
  have hrec : ((joinedRecord u ch "1" t₁).challengeId == "1") = true := by
    simp [joinedRecord]
  rw [joinChallenge_spec st u ch "1" t₁ hu hch hnj hcap]
  simp only [leaveChallenge, hu, if_true, eq_self_iff_true, List.any_append, hany,
    List.any_cons, List.any_nil, hrec, Bool.false_or, Bool.or_false, Bool.true_or, if_pos]
  rw [modifyFirst_append_singleton hl hrec]
  constructor
  · simp only [getParticipants, getChallengeById, find?_updateChallengeParticipants]
    cases st.challenges.find? (fun c => c.id == "1") with
    | none => rfl
    | some c =>
      simp only [Option.map_some']
      norm_num
  · rw [find?_append_singleton hl]
    simp [hrec]

/-- C8 (witness).  Runs join-then-leave on `c8St` (seeded counter 2453). -/
theorem C8_witness :
    getParticipants (leaveChallenge (joinChallenge c8St "1" 0).1 "1" 7).1 "1"
      = getParticipants c8St "1"
    ∧ (((leaveChallenge (joinChallenge c8St "1" 0).1 "1" 7).1.userChallenges "u").find?
        (fun uc => uc.challengeId == "1")).map (fun uc => (uc.status, uc.endDate))
      = some (Status.abandoned, 7) :=
  C8_join_leave c8St "u" c8Challenge 0 7 (by rfl) (by decide) (by decide) (by decide)

end FitChallenge

namespace FitChallenge

/-- C9.  The invariant `currentDay ≤ totalDays` is preserved: the progress
mutation of `updateChallengeProgress` preserves it on any snapshot for any
delta (`workoutCompleted` advances `currentDay` capped at `totalDays`), the
state-level operation keeps it across every stored record of any user, and
`joinChallenge` creates records satisfying it for any catalog whose
durations are at least 1 (the data model's positive-integer durations). -/
theorem C9_invariant :
    (∀ (p : Progress) (d : ProgressData), p.currentDay ≤ p.totalDays →
      (applyProgressData p d).currentDay ≤ (applyProgressData p d).totalDays)
    ∧ (∀ (st : AppState) (cid : String) (d : ProgressData) (now : ℚ) (u : String),
      (∀ uc ∈ st.userChallenges u, uc.progress.currentDay ≤ uc.progress.totalDays) →
      ∀ uc ∈ (updateChallengeProgress st cid d now).1.userChallenges u,
        uc.progress.currentDay ≤ uc.progress.totalDays)
    ∧ (∀ (st : AppState) (cid : String) (now : ℚ) (uc : UserChallenge),
      (∀ c ∈ st.challenges, 1 ≤ c.duration) →
      (joinChallenge st cid now).2 = JoinResult.joined uc →
      uc.progress.currentDay ≤ uc.progress.totalDays) := by
  have part1 : ∀ (p : Progress) (d : ProgressData), p.currentDay ≤ p.totalDays →
      (applyProgressData p d).currentDay ≤ (applyProgressData p d).totalDays := by
    intro p d h
    simp only [applyProgressData]
    split_ifs <;> simp_all [min_le_right]
  refine ⟨part1, ?_, ?_⟩
  · intro st cid d now u hinv uc hmem
    simp only [updateChallengeProgress] at hmem
    cases hcu : st.currentUser with
    | none =>
      rw [hcu] at hmem
      exact hinv uc (by simpa using hmem)
    | some uid =>
      rw [hcu] at hmem
      simp only [] at hmem
      cases hf : (st.userChallenges uid).find? (fun x => x.challengeId == cid) with
      | none =>
        rw [hf] at hmem
        exact hinv uc (by simpa using hmem)
      | some uc0 =>
        rw [hf] at hmem
        simp only [] at hmem
        by_cases huu : u = uid
        · subst huu
          simp only [if_pos rfl] at hmem
          rcases mem_modifyFirst hmem with h | ⟨y, hy, hxy⟩
          · exact hinv uc h
          · have hprog : uc.progress = applyProgressData uc0.progress d := by
              rw [hxy]
              split <;> rfl
            have h0 : uc0 ∈ st.userChallenges u := List.mem_of_find?_eq_some hf
            rw [hprog]
            exact part1 uc0.progress d (hinv uc0 h0)
        · simp only [if_neg huu] at hmem
          exact hinv uc hmem
  · intro st cid now uc hdur hjoin
    cases hcu : st.currentUser with
    | none =>
      simp only [joinChallenge, hcu] at hjoin
      exact absurd hjoin (by simp)
    | some u =>
      cases hch : getChallengeById st cid with
      | none =>
        simp only [joinChallenge, hcu, hch] at hjoin
        exact absurd hjoin (by simp)
      | some ch =>
        have hmem : ch ∈ st.challenges := by
          have := hch
          simp only [getChallengeById] at this
          exact List.mem_of_find?_eq_some this
        simp only [joinChallenge, hcu, hch] at hjoin
        cases hj : hasJoinedChallenge st cid none with
        | true =>
          simp only [hj, if_true] at hjoin
          exact absurd hjoin (by simp)
        | false =>
          simp only [hj, Bool.false_eq_true, if_false] at hjoin
          split at hjoin
          · exact absurd hjoin (by simp)
          · simp only [JoinResult.joined.injEq] at hjoin
            subst hjoin
            simp only [joinedRecord]
            exact hdur ch hmem

/-- C9 (witness).  Instantiates preservation on a concrete snapshot under a
`workoutCompleted` delta and invariant establishment on a concrete join. -/
theorem C9_witness :
    ((mkUC zeroProgress).progress.currentDay ≤ (mkUC zeroProgress).progress.totalDays
      ∧ (applyProgressData (mkUC zeroProgress).progress workoutDelta).currentDay
        ≤ (applyProgressData (mkUC zeroProgress).progress workoutDelta).totalDays)
    ∧ (joinedRecord "u" c2Challenge "X" 0).progress.currentDay
      ≤ (joinedRecord "u" c2Challenge "X" 0).progress.totalDays := by
  have h0 : (mkUC zeroProgress).progress.currentDay
      ≤ (mkUC zeroProgress).progress.totalDays := by
    norm_num [mkUC, zeroProgress]
  refine ⟨⟨h0, C9_invariant.1 (mkUC zeroProgress).progress workoutDelta h0⟩, ?_⟩
  exact C9_invariant.2.2 c2St "X" 0 (joinedRecord "u" c2Challenge "X" 0)
    (by
      intro c hc
      simp only [c2St, List.mem_singleton] at hc
      subst hc
      norm_num [c2Challenge])
    (by rw [joinChallenge_spec c2St "u" c2Challenge "X" 0 rfl (by decide) (by decide) (by decide)])

/-- C10.  For an authenticated user holding a record for the challenge, an
update whose delta fields are all absent, zero, or false reports success
with the OLD progress snapshot and the old percentage, and the stored
record's progress is unchanged: zero-valued distance, calories and minutes
deltas are ignored rather than added. -/
theorem C10_zero_delta (st : AppState) (u cid : String) (uc0 : UserChallenge)
    (d : ProgressData) (now : ℚ)
    (hu : st.currentUser = some u)
    (hfind : (st.userChallenges u).find? (fun uc => uc.challengeId == cid) = some uc0)
    (hd1 : truthy d.distance = false) (hd2 : truthy d.calories = false)
    (hd3 : truthy d.minutes = false) (hd4 : d.workoutCompleted = false) :
    (updateChallengeProgress st cid d now).2
      = UpdateResult.updated uc0.progress (calculateChallengeProgress uc0)
    ∧ (((updateChallengeProgress st cid d now).1.userChallenges u).find?
        (fun uc => uc.challengeId == cid)).map (fun uc => uc.progress)
      = some uc0.progress := by
  have happ : applyProgressData uc0.progress d = uc0.progress := by
    simp [applyProgressData, hd1, hd2, hd3, hd4]
  have heta : ({ uc0 with progress := uc0.progress } : UserChallenge) = uc0 := rfl
  have hpred : (uc0.challengeId == cid) = true := by
    simpa using List.find?_some hfind
  constructor
  · simp only [updateChallengeProgress, hu, hfind, happ, heta]
  · simp only [updateChallengeProgress, hu, hfind, happ, heta, if_true]
    rw [find?_modifyFirst (by intro uc hb; split <;> exact hpred), hfind]
    simp only [Option.map_some']
    split <;> rfl

/-- C10 (witness).  A `{distance: 0, workoutCompleted: false}` delta on the
partially advanced record of `c10St` succeeds and changes nothing. -/
theorem C10_witness :
    (updateChallengeProgress c10St "X" c10Delta 3).2
      = UpdateResult.updated c10UC.progress (calculateChallengeProgress c10UC)
    ∧ (((updateChallengeProgress c10St "X" c10Delta 3).1.userChallenges "u").find?
        (fun uc => uc.challengeId == "X")).map (fun uc => uc.progress)
      = some c10UC.progress :=
  C10_zero_delta c10St "u" "X" c10UC c10Delta 3 (by rfl) (by rfl)
    (by rfl) (by rfl) (by rfl) (by rfl)

end FitChallenge
